import Mathlib

/-!
Verification of the `lulwimi` text-analysis pipeline (`lulwimi.py`).

The program reads a stopword file and a list of input text files, computes
lexical statistics per corpus entry (index 0 = concatenation of all parts,
indices 1..N = the individual parts), renders word clouds, fits an LDA topic
model with a fixed configuration, summarises the dominant topic per entry and
writes an HTML report.

External collaborators (nltk `sent_tokenize` / `word_tokenize`, the gensim
LDA fitter, the wordcloud renderer, matplotlib, dominate) are opaque: they are
modelled as abstract function parameters.  Everything the repository itself
computes (file shaping, cleaning rules, filename derivation, fixed LDA
configuration, grid iteration, dominant-topic selection, control flow of
`main`) is embedded directly from the source.
-/

/-- Python `str.isalpha`: true iff the string is non-empty and every character
is alphabetic (ASCII model matching `Char.isAlpha`). -/
def pyIsAlpha (s : String) : Bool :=
  !s.data.isEmpty && s.data.all Char.isAlpha

/-- Python `str.lower` (ASCII model): lowercase every character. -/
def pyLower (s : String) : String :=
  ⟨s.data.map Char.toLower⟩

/-- Python `" ".join(xs)`. -/
def pyJoinSpace (xs : List String) : String :=
  String.intercalate " " xs

/-- Python `str.split()` with no argument: split on whitespace and drop the
empty pieces. -/
def pySplit (s : String) : List String :=
  (s.split Char.isWhitespace).filter (fun w => w ≠ "")

/-- Lines 39-41 of `identify_text_properties`: from the word-tokenized text
keep only tokens made of letters, lowercase them, and drop tokens that occur
in the stopword list.  `wt` models the external nltk `word_tokenize`. -/
def cleanTokens (wt : String → List String) (stop : List String)
    (text : String) : List String :=
  (((wt text).filter pyIsAlpha).map pyLower).filter (fun w => !stop.contains w)

/-- The per-entry lists populated by `identify_text_properties`:
`data["number of sentences"]`, `data["number of tokens"]`,
`data["tokens per sentence"]` and `data["tokenized_text"]`. -/
structure TextProps where
  numSentences : List Nat
  numTokens : List Nat
  tokensPerSentence : List Rat
  tokenizedText : List String
deriving Repr, DecidableEq

/-- Embeds `identify_text_properties` (lines 20-43).  For each text it counts
sentences (via the external `sent` = nltk `sent_tokenize`) and tokens (via
`wt` = nltk `word_tokenize`), divides token count by sentence count, and
stores the space-joined cleaned token stream.  A zero sentence count makes
the division `data["number of tokens"][-1]/data["number of sentences"][-1]`
raise `ZeroDivisionError`, modelled as `Except.error ()`. -/
def identifyTextProperties (sent wt : String → List String)
    (stop : List String) : List String → Except Unit TextProps
  | [] => .ok ⟨[], [], [], []⟩
  | t :: ts =>
    let ns := (sent t).length
    let nt := (wt t).length
    if ns = 0 then .error ()
    else
      match identifyTextProperties sent wt stop ts with
      | .error e => .error e
      | .ok rest =>
        .ok ⟨ns :: rest.numSentences, nt :: rest.numTokens,
             ((nt : Rat) / (ns : Rat)) :: rest.tokensPerSentence,
             pyJoinSpace (cleanTokens wt stop t) :: rest.tokenizedText⟩

/-- Embeds `read_texts` (lines 94-106) as an accumulating pass over the files'
line lists: component 1 is `data["text"][0]` (the running `+=` concatenation,
no separator between files), component 2 is the list of parts, each file's
lines joined by a single space. -/
def readTextsAux : List (List String) → String × List String
  | [] => ("", [])
  | f :: fs =>
    let part := pyJoinSpace f
    let rest := readTextsAux fs
    (part ++ rest.1, part :: rest.2)

/-- The `data["text"]` list produced by `read_texts`: the aggregate text at
index 0 followed by the individual parts in input order. -/
def readTexts (files : List (List String)) : List String :=
  (readTextsAux files).1 :: (readTextsAux files).2

/-- Python `os.path.basename` for slash-separated paths: the characters after
the last `/` (the whole string when there is no `/`). -/
def pyBasename (s : String) : String :=
  ⟨(s.data.reverse.takeWhile (fun c => c ≠ '/')).reverse⟩

/-- The stem component of Python `os.path.splitext`: everything before the
last dot, except that a dot counts as an extension separator only when some
non-dot character precedes it (so `".bashrc"` keeps its dot). -/
def pySplitextStem (s : String) : String :=
  match s.data.reverse.dropWhile (fun c => c ≠ '.') with
  | [] => s
  | _ :: stemRev => if stemRev.any (fun c => c ≠ '.') then ⟨stemRev.reverse⟩ else s

/-- Lines 56-59 of `generate_wordcloud`: the label for grid position
`counter` is `"all"` for the aggregate entry and the extension-stripped base
name of input file `counter - 1` otherwise. -/
def wordcloudBase (input : List String) (counter : Nat) : String :=
  if counter = 0 then "all"
  else pySplitextStem (pyBasename (input.getD (counter - 1) ""))

/-- The `data["bases"]` list built by `generate_wordcloud` for `numEntries`
corpus entries. -/
def generateBases (input : List String) (numEntries : Nat) : List String :=
  (List.range numEntries).map (wordcloudBase input)

/-- The `data["wordcloud"]` list of PNG filenames built by
`generate_wordcloud`: each label plus `".png"` (line 65). -/
def generateWordcloudNames (input : List String) (numEntries : Nat) : List String :=
  (generateBases input numEntries).map (fun b => b ++ ".png")

/-- The keyword arguments `generate_lda` passes to
`gensim.models.ldamodel.LdaModel` (lines 79-89). -/
structure LdaConfig where
  numTopics : Nat
  randomState : Nat
  updateEvery : Nat
  chunksize : Nat
  passes : Nat
  alpha : String
  iterations : Nat
  perWordTopics : Bool
deriving Repr, DecidableEq

/-- The fixed model configuration used by `generate_lda`: 10 topics, seed
100, update_every 1, chunksize 10, 10 passes, symmetric prior, 100
iterations, per-word topics on. -/
def ldaConfig : LdaConfig :=
  { numTopics := 10, randomState := 100, updateEvery := 1, chunksize := 10,
    passes := 10, alpha := "symmetric", iterations := 100, perWordTopics := true }

/-- Embeds `generate_lda` (lines 70-91): the cleaned token streams are split
on whitespace into `data["split_texts"]` and handed, together with the fixed
configuration, to the external fitter (standing for the opaque
`corpora.Dictionary` / `doc2bow` / `LdaModel` chain). -/
def generateLda {M : Type} (fitter : LdaConfig → List (List String) → M)
    (tokenizedTexts : List String) : M :=
  fitter ldaConfig (tokenizedTexts.map pySplit)

/-- Stable insertion step for the descending sort by probability. -/
def insertByProb (x : Nat × Rat) : List (Nat × Rat) → List (Nat × Rat)
  | [] => [x]
  | y :: ys => if y.2 ≤ x.2 then x :: y :: ys else y :: insertByProb x ys

/-- Python `sorted(row, key = lambda x: (x[1]), reverse = True)` (line 121):
stable sort, descending by the probability component. -/
def sortByProbDesc : List (Nat × Rat) → List (Nat × Rat)
  | [] => []
  | x :: xs => insertByProb x (sortByProbDesc xs)

/-- Round an exact rational to the nearest integer, ties to even (the
rounding Python's `round` applies). -/
def roundHalfEven (q : Rat) : Int :=
  let f := ⌊q⌋
  if q - f < 1/2 then f
  else if 1/2 < q - f then f + 1
  else if f % 2 = 0 then f else f + 1

/-- Python `round(x, 4)` on an exact rational model of the value. -/
def pyRound4 (q : Rat) : Rat :=
  (roundHalfEven (q * 10000) : Rat) / 10000

/-- Embeds `identify_most_influencial_topic` (lines 109-130).  Each element
of `docRows` models the topic-probability row the fitted model returns for
one corpus entry (`row_list[0]` since `per_word_topics` is set).  The row is
sorted descending by probability; the first element yields the dominant
topic, its probability rounded to 4 decimals, and the `", "`-joined top
keywords from `showTopic` (modelling `ldamodel.show_topic`).  An empty row
appends nothing for that entry. -/
def identifyMostInfluentialTopic (showTopic : Nat → List (String × Rat)) :
    List (List (Nat × Rat)) → List (Nat × Rat × String)
  | [] => []
  | row :: rows =>
    match sortByProbDesc row with
    | [] => identifyMostInfluentialTopic showTopic rows
    | (topicNum, propTopic) :: _ =>
      (topicNum, pyRound4 propTopic,
        String.intercalate ", " ((showTopic topicNum).map Prod.fst)) ::
        identifyMostInfluentialTopic showTopic rows

/-- Number of subplot rows in `draw_topic_wordclouds` (line 178). -/
def gridRows : Nat := 5

/-- Number of subplot columns in `draw_topic_wordclouds` (line 178). -/
def gridCols : Nat := 2

/-- One pass of the cell loop of `draw_topic_wordclouds` (lines 179-185):
cell `i` reads `topics[i]` (IndexError, modelled as `Except.error`, when the
model returned fewer topics), renders that topic's word-weight dictionary and
titles the cell `"Topic i"`. -/
def drawTopicCells (topics : List (Nat × List (String × Rat))) :
    List Nat → Except Unit (List (Nat × List (String × Rat) × String))
  | [] => .ok []
  | i :: is =>
    match topics[i]? with
    | none => .error ()
    | some t =>
      match drawTopicCells topics is with
      | .error e => .error e
      | .ok rest => .ok ((i, t.2, "Topic " ++ toString i) :: rest)

/-- Embeds `draw_topic_wordclouds` (lines 165-194): iterate over the
flattened 5-by-2 subplot grid, i.e. cell indices `0..9`, reading the model's
returned topic list at each cell position. -/
def drawTopicWordclouds (topics : List (Nat × List (String × Rat))) :
    Except Unit (List (Nat × List (String × Rat) × String)) :=
  drawTopicCells topics (List.range (gridRows * gridCols))

/-- The parsed command-line arguments of `main` (lines 235-248). -/
structure Args where
  input : List String
  outputDir : String
  base : String
  stopwords : String

/-- Abstract view of the file system a run sees: `readFile` gives a file's
lines (`readlines`) or `none` when opening/reading fails, and
`outputDirExists` tells whether the output directory is already present. -/
structure FileSystem where
  readFile : String → Option (List String)
  outputDirExists : Bool

/-- How a run of `main` ends: `exited code` models `sys.exit` (no argument
means status 0), `crashed` an uncaught exception, `completed` a full run. -/
inductive Outcome
  | exited (code : Nat)
  | crashed (msg : String)
  | completed
deriving Repr, DecidableEq

/-- The observable outcome of `main`: critical log lines, whether the output
directory got created, the word-cloud PNG names, the dominant-topic records,
whether the HTML report was written, and how the process ended. -/
structure MainResult where
  criticalLog : List String
  outputDirCreated : Bool
  wordcloudFiles : List String
  topicDoc : List (Nat × Rat × String)
  reportWritten : Bool
  outcome : Outcome

/-- The file-reading loop inside `read_texts`: all input files' line lists,
or `none` as soon as one of them cannot be opened or read. -/
def readInputFiles (fs : FileSystem) : List String → Option (List (List String))
  | [] => some []
  | f :: rest =>
    match fs.readFile f with
    | none => none
    | some c =>
      match readInputFiles fs rest with
      | none => none
      | some cs => some (c :: cs)

/-- Embeds `main` (lines 231-289).  In source order: read the stopword file
(failure logs critically and calls `sys.exit()`, i.e. exit status 0, before
the output directory is touched); create the output directory if absent;
read the input files (failure logs critically and calls `sys.exit()`, after
the directory side effect); then run the pipeline stages, where a
zero-sentence entry crashes with `ZeroDivisionError` and a model returning
fewer than 10 topics crashes with `IndexError`, and a full run writes the
report.  The external tokenizers and the topic model are parameters. -/
def mainRun {M : Type} (sent wt : String → List String)
    (fitter : LdaConfig → List (List String) → M)
    (showTopics : M → List (Nat × List (String × Rat)))
    (docTopics : M → List (List (Nat × Rat)))
    (showTopic : M → Nat → List (String × Rat))
    (fs : FileSystem) (args : Args) : MainResult :=
  match fs.readFile args.stopwords with
  | none =>
    { criticalLog := ["Problem opening or reading from stopwords file"],
      outputDirCreated := false, wordcloudFiles := [], topicDoc := [],
      reportWritten := false, outcome := .exited 0 }
  | some stopLines =>
    let stopwords := pySplit (pyJoinSpace stopLines)
    let dirCreated := !fs.outputDirExists
    match readInputFiles fs args.input with
    | none =>
      { criticalLog := ["Problem opening or reading from input file"],
        outputDirCreated := dirCreated, wordcloudFiles := [], topicDoc := [],
        reportWritten := false, outcome := .exited 0 }
    | some contents =>
      let texts := readTexts contents
      match identifyTextProperties sent wt stopwords texts with
      | .error _ =>
        { criticalLog := [], outputDirCreated := dirCreated,
          wordcloudFiles := [], topicDoc := [], reportWritten := false,
          outcome := .crashed "ZeroDivisionError" }
      | .ok props =>
        let names := generateWordcloudNames args.input props.tokenizedText.length
        let model := generateLda fitter props.tokenizedText
        match drawTopicWordclouds (showTopics model) with
        | .error _ =>
          { criticalLog := [], outputDirCreated := dirCreated,
            wordcloudFiles := names, topicDoc := [], reportWritten := false,
            outcome := .crashed "IndexError" }
        | .ok _ =>
          { criticalLog := [], outputDirCreated := dirCreated,
            wordcloudFiles := names,
            topicDoc := identifyMostInfluentialTopic (showTopic model) (docTopics model),
            reportWritten := true, outcome := .completed }

/-! ### Concrete fixtures used by the witnesses -/

/-- A fixed sentence tokenizer for concrete instantiations: every text is one
sentence. -/
def oneSent : String → List String := fun _ => ["s"]

/-- A fixed word tokenizer for concrete instantiations: two tokens per
text. -/
def twoWords : String → List String := fun _ => ["ab", "cd"]

/-- A word tokenizer behaving like nltk on the C4 scenario text. -/
def catWords : String → List String := fun _ => ["The", "The", "cat", "."]

/-- A sentence tokenizer that finds no sentences (an empty document). -/
def zeroSent : String → List String := fun _ => []

/-- Concrete file system for witnesses: a stopword file `"stop"` and one
input file `"in1"`, everything else unreadable; output directory absent. -/
def wFS : FileSystem :=
  ⟨fun p => if p = "stop" then some ["the"] else if p = "in1" then some ["x"] else none,
   false⟩

/-- Concrete file system whose stopword file is unreadable. -/
def wFSBadStop : FileSystem := ⟨fun _ => none, false⟩

/-- Concrete file system with a readable stopword file but unreadable input
files; output directory absent. -/
def wFSBadInput : FileSystem :=
  ⟨fun p => if p = "stop" then some ["the"] else none, false⟩

/-- Concrete command-line arguments for witnesses. -/
def wArgs : Args := ⟨["in1"], "out", "rep", "stop"⟩

/-- Trivial fitter instantiating the opaque external topic model with
`Unit`. -/
def uFit : LdaConfig → List (List String) → Unit := fun _ _ => ()

/-- A model answer for `show_topics` with exactly 10 topics. -/
def uShowTopicsTen : Unit → List (Nat × List (String × Rat)) :=
  fun _ => (List.range 10).map (fun i => (i, [("w", 1)]))

/-- A model answer for `show_topics` with fewer than 10 topics. -/
def uShowTopicsFew : Unit → List (Nat × List (String × Rat)) := fun _ => []

/-- A model answer for the per-document topic rows: one nonempty row per
corpus entry of a two-entry corpus. -/
def uDocTopics : Unit → List (List (Nat × Rat)) := fun _ => [[(0, 1)], [(0, 1)]]

/-- A model answer for `show_topic`. -/
def uShowTopic : Unit → Nat → List (String × Rat) := fun _ _ => [("w", 1)]

/-- The `TextProps` record a successful run of the embedded analyser
produces (the empty record when it fails); used to phrase concrete
witnesses. -/
def propsOf (sent wt : String → List String) (stop : List String)
    (texts : List String) : TextProps :=
  match identifyTextProperties sent wt stop texts with
  | .ok p => p
  | .error _ => ⟨[], [], [], []⟩

/-- Decidable equality for `Except`, used to evaluate the embedded fallible
functions on concrete inputs. -/
instance {e a : Type} [DecidableEq e] [DecidableEq a] : DecidableEq (Except e a) := fun x y =>
  match x, y with
  | .error u, .error v =>
    if h : u = v then .isTrue (by rw [h]) else .isFalse (by intro hc; cases hc; exact h rfl)
  | .error _, .ok _ => .isFalse (by intro hc; cases hc)
  | .ok _, .error _ => .isFalse (by intro hc; cases hc)
  | .ok u, .ok v =>
    if h : u = v then .isTrue (by rw [h]) else .isFalse (by intro hc; cases hc; exact h rfl)

/-! ### Character and string helper lemmas -/

theorem char_toNat_ofNat {n : Nat} (h : n < 55296) : (Char.ofNat n).toNat = n := by
  rw [Char.ofNat, dif_pos (Or.inl h)]
  simp [Char.ofNatAux, Char.toNat, UInt32.ofNat', UInt32.toNat, BitVec.ofNatLt]

theorem uint32_le_iff {a b : UInt32} : a ≤ b ↔ a.toNat ≤ b.toNat := by
  rw [UInt32.le_def, BitVec.le_def]; rfl

theorem toLower_isLower (c : Char) (h : c.isAlpha = true) :
    c.toLower.isLower = true := by
  simp only [Char.isAlpha, Char.isLower, Char.isUpper, Char.toLower, Char.toNat,
    Bool.or_eq_true, Bool.and_eq_true, decide_eq_true_eq, ge_iff_le, uint32_le_iff,
    show (65 : UInt32).toNat = 65 from rfl, show (90 : UInt32).toNat = 90 from rfl,
    show (97 : UInt32).toNat = 97 from rfl, show (122 : UInt32).toNat = 122 from rfl] at *
  by_cases hc : 65 ≤ c.val.toNat ∧ c.val.toNat ≤ 90
  · rw [if_pos hc]
    have h1 : (Char.ofNat (c.val.toNat + 32)).toNat = c.val.toNat + 32 :=
      char_toNat_ofNat (by omega)
    simp only [Char.toNat] at h1
    rw [h1]
    omega
  · rw [if_neg hc]
    omega

theorem string_foldl_append (l : List String) (acc : String) :
    List.foldl (fun r s => r ++ s) acc l =
      acc ++ List.foldl (fun r s => r ++ s) "" l := by
  induction l generalizing acc with
  | nil => simp
  | cons a l ih =>
    simp only [List.foldl]
    rw [ih (acc ++ a), ih ("" ++ a), String.empty_append, String.append_assoc]

theorem stringJoin_cons (a : String) (l : List String) :
    String.join (a :: l) = a ++ String.join l := by
  simp only [String.join, List.foldl]
  rw [string_foldl_append l ("" ++ a), String.empty_append]

/-! ### Lemmas about `read_texts` -/

theorem readTextsAux_fst (files : List (List String)) :
    (readTextsAux files).1 = String.join (readTextsAux files).2 := by
  induction files with
  | nil => rfl
  | cons f fs ih => simp only [readTextsAux, stringJoin_cons, ih]

/-- The aggregate text at index 0 is exactly the order-preserving
concatenation (no separator) of the individual parts. -/
theorem readTexts_head_eq_join (files : List (List String)) :
    (readTexts files).getD 0 "" = String.join ((readTexts files).drop 1) := by
  simp only [readTexts, List.getD, List.get?, List.drop, readTextsAux_fst]
  rfl

theorem readTexts_length (files : List (List String)) :
    (readTexts files).length = files.length + 1 := by
  have h : ∀ fs : List (List String), (readTextsAux fs).2.length = fs.length := by
    intro fs
    induction fs with
    | nil => rfl
    | cons f fs ih => simp only [readTextsAux, List.length_cons, ih]
  simp only [readTexts, List.length_cons, h]

/-! ### Lemmas about `identify_text_properties` -/

theorem identify_lengths (sent wt : String → List String) (stop : List String)
    (texts : List String) (props : TextProps)
    (h : identifyTextProperties sent wt stop texts = .ok props) :
    props.numSentences.length = texts.length ∧
    props.numTokens.length = texts.length ∧
    props.tokensPerSentence.length = texts.length ∧
    props.tokenizedText.length = texts.length := by
  induction texts generalizing props with
  | nil =>
    simp only [identifyTextProperties, Except.ok.injEq] at h
    subst h
    exact ⟨rfl, rfl, rfl, rfl⟩
  | cons t ts ih =>
    rw [identifyTextProperties] at h
    by_cases hns : (sent t).length = 0
    · simp only [hns, if_pos] at h
      exact absurd h (by simp)
    · simp only [hns, if_neg, ite_false] at h
      cases hrec : identifyTextProperties sent wt stop ts with
      | error e => rw [hrec] at h; exact absurd h (by simp)
      | ok rest =>
        rw [hrec] at h
        simp only [Except.ok.injEq] at h
        subst h
        obtain ⟨h1, h2, h3, h4⟩ := ih rest hrec
        simp [h1, h2, h3, h4]

theorem identify_error_iff (sent wt : String → List String) (stop : List String)
    (texts : List String) :
    identifyTextProperties sent wt stop texts = .error () ↔
      ∃ t ∈ texts, (sent t).length = 0 := by
  induction texts with
  | nil => simp [identifyTextProperties]
  | cons t ts ih =>
    rw [identifyTextProperties]
    by_cases hns : (sent t).length = 0
    · simp [hns]
      exact Or.inl (List.length_eq_zero.mp hns)
    · simp only [hns, if_neg, ite_false]
      cases hrec : identifyTextProperties sent wt stop ts with
      | error e =>
        cases e
        simp only [hrec, true_iff] at ih
        simp [hns]
        obtain ⟨x, hx, hsx⟩ := ih
        exact Or.inr ⟨x, hx, List.length_eq_zero.mp hsx⟩
      | ok rest =>
        rw [hrec] at ih
        simp only [List.mem_cons]
        constructor
        · intro h
          exact absurd h (by simp)
        · rintro ⟨x, hx | hx, hsx⟩
          · exact absurd hsx (hx ▸ hns)
          · exact absurd (ih.mpr ⟨x, hx, hsx⟩) (by simp)

theorem identify_values (sent wt : String → List String) (stop : List String)
    (texts : List String) (props : TextProps)
    (h : identifyTextProperties sent wt stop texts = .ok props)
    (i : Nat) (hi : i < texts.length) :
    props.numSentences.getD i 0 = (sent (texts.getD i "")).length ∧
    props.numTokens.getD i 0 = (wt (texts.getD i "")).length ∧
    0 < props.numSentences.getD i 0 ∧
    props.tokensPerSentence.getD i 0 =
      (props.numTokens.getD i 0 : Rat) / (props.numSentences.getD i 0 : Rat) ∧
    props.tokenizedText.getD i "" = pyJoinSpace (cleanTokens wt stop (texts.getD i "")) := by
  induction texts generalizing props i with
  | nil => exact absurd hi (by simp)
  | cons t ts ih =>
    rw [identifyTextProperties] at h
    by_cases hns : (sent t).length = 0
    · simp only [hns, if_pos] at h
      exact absurd h (by simp)
    · simp only [hns, if_neg, ite_false] at h
      cases hrec : identifyTextProperties sent wt stop ts with
      | error e => rw [hrec] at h; exact absurd h (by simp)
      | ok rest =>
        rw [hrec] at h
        simp only [Except.ok.injEq] at h
        subst h
        cases i with
        | zero =>
          refine ⟨rfl, rfl, Nat.pos_of_ne_zero hns, rfl, rfl⟩
        | succ j =>
          simp only [List.getD, List.get?, List.length_cons] at *
          exact ih rest hrec j (by omega)

/-! ### Lemmas about the cleaning rules -/

theorem cleanTokens_mem (wt : String → List String) (stop : List String)
    (text : String) (tok : String) (h : tok ∈ cleanTokens wt stop text) :
    tok ≠ "" ∧ tok.data.all Char.isLower = true ∧ tok ∉ stop := by
  simp only [cleanTokens, List.mem_filter, List.mem_map] at h
  obtain ⟨⟨w, ⟨hwmem, halpha⟩, rfl⟩, hnot⟩ := h
  simp only [pyIsAlpha, Bool.and_eq_true, Bool.not_eq_true', List.isEmpty_eq_false,
    List.all_eq_true] at halpha
  obtain ⟨hne, hall⟩ := halpha
  refine ⟨?_, ?_, ?_⟩
  · intro hcon
    have hd : (pyLower w).data = [] := by rw [hcon]
    simp only [pyLower, List.map_eq_nil_iff] at hd
    exact hne hd
  · simp only [pyLower, List.all_eq_true]
    intro c hc
    simp only [List.mem_map] at hc
    obtain ⟨d, hd, rfl⟩ := hc
    exact toLower_isLower d (hall d hd)
  · intro hmem
    simp [List.contains, List.elem_eq_mem, hmem] at hnot

/-! ### Lemmas about filename derivation -/

theorem takeWhile_append_stop (p : Char → Bool) (l1 l2 : List Char) (c : Char)
    (h1 : ∀ x ∈ l1, p x = true) (hc : p c = false) :
    (l1 ++ c :: l2).takeWhile p = l1 := by
  induction l1 with
  | nil => simp [List.takeWhile_cons, hc]
  | cons a l ih =>
    simp only [List.cons_append, List.takeWhile_cons, h1 a (by simp), if_true]
    rw [ih (fun x hx => h1 x (by simp [hx]))]

theorem pyBasename_append (dir name : String) (h : '/' ∉ name.data) :
    pyBasename (dir ++ "/" ++ name) = name := by
  simp only [pyBasename, String.data_append]
  have hd : ((dir.data ++ "/".data) ++ name.data).reverse =
      name.data.reverse ++ '/' :: dir.data.reverse := by
    simp [List.reverse_append]
  rw [hd, takeWhile_append_stop _ _ _ _ (fun x hx => by
        simp only [List.mem_reverse] at hx
        simp only [decide_eq_true_eq]
        exact fun hxe => h (hxe ▸ hx))
      (by simp)]
  exact String.ext (by simp)

/-! ### Lemmas about the dominant-topic summariser -/

theorem insertByProb_length (x : Nat × Rat) (l : List (Nat × Rat)) :
    (insertByProb x l).length = l.length + 1 := by
  induction l with
  | nil => rfl
  | cons y ys ih =>
    rw [insertByProb]
    split
    · rfl
    · simp [ih]

theorem sortByProbDesc_length (l : List (Nat × Rat)) :
    (sortByProbDesc l).length = l.length := by
  induction l with
  | nil => rfl
  | cons x xs ih => simp [sortByProbDesc, insertByProb_length, ih]

theorem identifyTopic_length (showTopic : Nat → List (String × Rat))
    (docRows : List (List (Nat × Rat))) (h : ∀ row ∈ docRows, row ≠ []) :
    (identifyMostInfluentialTopic showTopic docRows).length = docRows.length := by
  induction docRows with
  | nil => rfl
  | cons row rows ih =>
    rw [identifyMostInfluentialTopic]
    cases hs : sortByProbDesc row with
    | nil =>
      have hlen := sortByProbDesc_length row
      rw [hs] at hlen
      exact absurd (List.length_eq_zero.mp hlen.symm) (h row (by simp))
    | cons hd tl =>
      cases hd
      simp only [List.length_cons]
      rw [ih (fun r hr => h r (by simp [hr]))]

/-! ### Lemmas about the topic-cloud grid -/

theorem drawTopicCells_ok (topics : List (Nat × List (String × Rat)))
    (l : List Nat) (h : ∀ i ∈ l, i < topics.length) :
    drawTopicCells topics l =
      .ok (l.map fun i => (i, (topics.getD i (0, [])).2, "Topic " ++ toString i)) := by
  induction l with
  | nil => rfl
  | cons i is ih =>
    rw [drawTopicCells]
    have hi : i < topics.length := h i (by simp)
    rw [List.getElem?_eq_getElem hi]
    rw [ih (fun j hj => h j (by simp [hj]))]
    simp [List.getD, List.getElem?_eq_getElem hi]

theorem drawTopicCells_error (topics : List (Nat × List (String × Rat)))
    (l : List Nat) (h : ∃ i ∈ l, topics.length ≤ i) :
    drawTopicCells topics l = .error () := by
  induction l with
  | nil => simp at h
  | cons i is ih =>
    rw [drawTopicCells]
    by_cases hi : topics.length ≤ i
    · rw [List.getElem?_eq_none hi]
    · obtain ⟨j, hj, hjl⟩ := h
      have hj' : j ∈ is := by
        cases List.mem_cons.mp hj with
        | inl he => exact absurd (he ▸ hjl) hi
        | inr hm => exact hm
      cases hgi : topics[i]? with
      | none => rfl
      | some t => rw [ih ⟨j, hj', hjl⟩]

/-! ### Claim theorems -/

/-- C1: for every non-empty list of input files, the cleaned token stream
computed (by `identify_text_properties`) for the aggregate corpus entry at
index 0 equals the result of applying the same cleaning rules to the
order-preserving concatenation of all individual parts' raw texts. -/
theorem aggregate_clean_eq_concat_clean (sent wt : String → List String)
    (stop : List String) (files : List (List String)) (props : TextProps)
    (_hne : files ≠ [])
    (hp : identifyTextProperties sent wt stop (readTexts files) = .ok props) :
    props.tokenizedText.getD 0 "" =
      pyJoinSpace (cleanTokens wt stop (String.join ((readTexts files).drop 1))) := by
  have h0 : 0 < (readTexts files).length := by rw [readTexts_length]; omega
  have hv := identify_values sent wt stop (readTexts files) props hp 0 h0
  rw [hv.2.2.2.2, readTexts_head_eq_join]

/-- Witness for C1 at two concrete one-line files. -/
theorem aggregate_clean_eq_concat_clean_witness :
    (propsOf oneSent twoWords [] (readTexts [["a"], ["b"]])).tokenizedText.getD 0 "" =
      pyJoinSpace (cleanTokens twoWords []
        (String.join ((readTexts [["a"], ["b"]]).drop 1))) :=
  aggregate_clean_eq_concat_clean oneSent twoWords [] [["a"], ["b"]]
    (propsOf oneSent twoWords [] (readTexts [["a"], ["b"]])) (by simp) rfl

/-- C2: for every corpus entry of a successfully analysed corpus, the
sentence count is positive and the stored tokens-per-sentence value equals
exactly the entry's token count divided by its sentence count. -/
theorem tokensPerSentence_eq_div (sent wt : String → List String)
    (stop : List String) (texts : List String) (props : TextProps)
    (hp : identifyTextProperties sent wt stop texts = .ok props)
    (i : Nat) (hi : i < texts.length) :
    0 < props.numSentences.getD i 0 ∧
    props.tokensPerSentence.getD i 0 =
      (props.numTokens.getD i 0 : Rat) / (props.numSentences.getD i 0 : Rat) := by
  have hv := identify_values sent wt stop texts props hp i hi
  exact ⟨hv.2.2.1, hv.2.2.2.1⟩

/-- Witness for C2 at a concrete one-entry corpus with one sentence and two
tokens. -/
theorem tokensPerSentence_eq_div_witness :
    0 < (propsOf oneSent twoWords [] ["x"]).numSentences.getD 0 0 ∧
    (propsOf oneSent twoWords [] ["x"]).tokensPerSentence.getD 0 0 =
      ((propsOf oneSent twoWords [] ["x"]).numTokens.getD 0 0 : Rat) /
        ((propsOf oneSent twoWords [] ["x"]).numSentences.getD 0 0 : Rat) :=
  tokensPerSentence_eq_div oneSent twoWords [] ["x"]
    (propsOf oneSent twoWords [] ["x"]) rfl 0 (by simp)

/-- C3: with readable stopword and input files, the run aborts with an
unguarded `ZeroDivisionError` while computing tokens-per-sentence if and only
if some corpus entry has zero sentences. -/
theorem zero_sentences_divzero_iff {M : Type} (sent wt : String → List String)
    (fitter : LdaConfig → List (List String) → M)
    (showTopics : M → List (Nat × List (String × Rat)))
    (docTopics : M → List (List (Nat × Rat)))
    (showTopic : M → Nat → List (String × Rat))
    (fs : FileSystem) (args : Args)
    (stopLines : List String) (contents : List (List String))
    (hs : fs.readFile args.stopwords = some stopLines)
    (hr : readInputFiles fs args.input = some contents) :
    ((mainRun sent wt fitter showTopics docTopics showTopic fs args).outcome =
        Outcome.crashed "ZeroDivisionError" ↔
      ∃ t ∈ readTexts contents, (sent t).length = 0) := by
  rw [← identify_error_iff sent wt (pySplit (pyJoinSpace stopLines)) (readTexts contents)]
  simp only [mainRun, hs, hr]
  cases hid : identifyTextProperties sent wt (pySplit (pyJoinSpace stopLines))
      (readTexts contents) with
  | error e => cases e; simp
  | ok props =>
    cases hdr : drawTopicWordclouds
        (showTopics (generateLda fitter props.tokenizedText)) with
    | error e => simp [hdr]
    | ok cells => simp [hdr]

/-- Witness for C3: with a readable stopword file and one readable input
file whose text has no sentences, the run crashes with the division by
zero. -/
theorem zero_sentences_divzero_iff_witness :
    (mainRun zeroSent twoWords uFit uShowTopicsTen uDocTopics uShowTopic
        wFS wArgs).outcome = Outcome.crashed "ZeroDivisionError" :=
  (zero_sentences_divzero_iff zeroSent twoWords uFit uShowTopicsTen uDocTopics
      uShowTopic wFS wArgs ["the"] [["x"]] (by decide) (by decide)).mpr
    ⟨"x", by decide, rfl⟩

/-- C4: every token of a cleaned token stream is purely alphabetic (in the
sense of Python `isalpha`), entirely lowercase and absent from the stopword
set; and with the stopword list `["the"]`, tokenizing `"The The cat."` as
nltk does yields the cleaned token stream `"cat"`. -/
theorem cleaned_tokens_lower_nostop (wt : String → List String)
    (stop : List String) (text tok : String)
    (hmem : tok ∈ cleanTokens wt stop text)
    (hwt : wt "The The cat." = ["The", "The", "cat", "."]) :
    (pyIsAlpha tok = true ∧ tok.data.all Char.isLower = true ∧ tok ∉ stop) ∧
    pyJoinSpace (cleanTokens wt ["the"] "The The cat.") = "cat" := by
  obtain ⟨hne, hlow, hstop⟩ := cleanTokens_mem wt stop text tok hmem
  constructor
  · refine ⟨?_, hlow, hstop⟩
    simp only [pyIsAlpha, Bool.and_eq_true, Bool.not_eq_true', List.isEmpty_eq_false,
      List.all_eq_true]
    constructor
    · intro hd
      exact hne (String.ext hd)
    · intro c hc
      simp only [List.all_eq_true] at hlow
      simp [Char.isAlpha, hlow c hc]
  · rw [cleanTokens, hwt]
    decide

/-- Witness for C4 at the scenario input itself. -/
theorem cleaned_tokens_lower_nostop_witness :
    (pyIsAlpha "cat" = true ∧ "cat".data.all Char.isLower = true ∧
      "cat" ∉ ["the"]) ∧
    pyJoinSpace (cleanTokens catWords ["the"] "The The cat.") = "cat" :=
  cleaned_tokens_lower_nostop catWords ["the"] "The The cat." "cat"
    (by decide) rfl

/-- C5: after a successful analysis pass, the per-entry sequences all have
length (number of input files) + 1 and are index-aligned with index 0 the
aggregate: raw texts, sentence counts, token counts, tokens-per-sentence
values, cleaned token streams, labels, word-cloud PNG filenames and
dominant-topic summaries. -/
theorem entries_index_aligned (sent wt : String → List String)
    (stop : List String) (files : List (List String)) (props : TextProps)
    (input : List String) (showTopic : Nat → List (String × Rat))
    (docRows : List (List (Nat × Rat)))
    (hp : identifyTextProperties sent wt stop (readTexts files) = .ok props)
    (hd : docRows.length = (readTexts files).length)
    (hrows : ∀ row ∈ docRows, row ≠ []) :
    (readTexts files).length = files.length + 1 ∧
    props.numSentences.length = files.length + 1 ∧
    props.numTokens.length = files.length + 1 ∧
    props.tokensPerSentence.length = files.length + 1 ∧
    props.tokenizedText.length = files.length + 1 ∧
    (generateBases input props.tokenizedText.length).length = files.length + 1 ∧
    (generateWordcloudNames input props.tokenizedText.length).length =
      files.length + 1 ∧
    (identifyMostInfluentialTopic showTopic docRows).length = files.length + 1 := by
  obtain ⟨h1, h2, h3, h4⟩ := identify_lengths sent wt stop (readTexts files) props hp
  have hrt := readTexts_length files
  refine ⟨hrt, h1.trans hrt, h2.trans hrt, h3.trans hrt, h4.trans hrt, ?_, ?_, ?_⟩
  · simp [generateBases, h4, hrt]
  · simp [generateWordcloudNames, generateBases, h4, hrt]
  · rw [identifyTopic_length showTopic docRows hrows, hd, hrt]

/-- Witness for C5 at one concrete input file. -/
theorem entries_index_aligned_witness :
    (readTexts [["x"]]).length = 1 + 1 ∧
    (propsOf oneSent twoWords [] (readTexts [["x"]])).numSentences.length = 1 + 1 ∧
    (propsOf oneSent twoWords [] (readTexts [["x"]])).numTokens.length = 1 + 1 ∧
    (propsOf oneSent twoWords [] (readTexts [["x"]])).tokensPerSentence.length = 1 + 1 ∧
    (propsOf oneSent twoWords [] (readTexts [["x"]])).tokenizedText.length = 1 + 1 ∧
    (generateBases ["in1"]
      (propsOf oneSent twoWords [] (readTexts [["x"]])).tokenizedText.length).length =
      1 + 1 ∧
    (generateWordcloudNames ["in1"]
      (propsOf oneSent twoWords [] (readTexts [["x"]])).tokenizedText.length).length =
      1 + 1 ∧
    (identifyMostInfluentialTopic (uShowTopic ()) (uDocTopics ())).length = 1 + 1 :=
  entries_index_aligned oneSent twoWords [] [["x"]]
    (propsOf oneSent twoWords [] (readTexts [["x"]])) ["in1"] (uShowTopic ())
    (uDocTopics ()) rfl (by decide) (by decide)

/-- C6: the topic-cloud renderer iterates over exactly the 10 cells of the
fixed 5-by-2 grid and indexes the model's returned topic list by cell
position: it renders all 10 cells from `topics[i]` precisely when the model
returned at least 10 topics, and fails with the unguarded out-of-range
access when it returned fewer. -/
theorem topic_grid_fixed_ten (topics : List (Nat × List (String × Rat))) :
    gridRows * gridCols = 10 ∧
    (10 ≤ topics.length →
      drawTopicWordclouds topics =
        .ok ((List.range 10).map fun i =>
          (i, (topics.getD i (0, [])).2, "Topic " ++ toString i))) ∧
    (topics.length < 10 → drawTopicWordclouds topics = .error ()) := by
  refine ⟨rfl, ?_, ?_⟩
  · intro h
    exact drawTopicCells_ok topics (List.range 10)
      (fun i hi => lt_of_lt_of_le (List.mem_range.mp hi) h)
  · intro h
    exact drawTopicCells_error topics (List.range 10)
      ⟨topics.length, List.mem_range.mpr h, Nat.le_refl _⟩

/-- Witness for C6: a model answer with exactly 10 topics renders the full
grid, one with no topics fails. -/
theorem topic_grid_fixed_ten_witness :
    drawTopicWordclouds (uShowTopicsTen ()) =
      .ok ((List.range 10).map fun i =>
        (i, ((uShowTopicsTen ()).getD i (0, [])).2, "Topic " ++ toString i)) ∧
    drawTopicWordclouds (uShowTopicsFew ()) = .error () :=
  ⟨(topic_grid_fixed_ten (uShowTopicsTen ())).2.1 (by decide),
   (topic_grid_fixed_ten (uShowTopicsFew ())).2.2 (by decide)⟩

/-- C7 (amended): if the stopword file or any input file cannot be opened or
read, the program logs a critical message and terminates immediately via
`sys.exit()` — which exits with status 0, not a non-zero code — producing no
report, no word clouds and no topic summaries; there is no partial-success
mode. -/
theorem fatal_io_aborts {M : Type} (sent wt : String → List String)
    (fitter : LdaConfig → List (List String) → M)
    (showTopics : M → List (Nat × List (String × Rat)))
    (docTopics : M → List (List (Nat × Rat)))
    (showTopic : M → Nat → List (String × Rat))
    (fs : FileSystem) (args : Args)
    (h : fs.readFile args.stopwords = none ∨ readInputFiles fs args.input = none) :
    (mainRun sent wt fitter showTopics docTopics showTopic fs args).criticalLog ≠ [] ∧
    (mainRun sent wt fitter showTopics docTopics showTopic fs args).reportWritten
      = false ∧
    (mainRun sent wt fitter showTopics docTopics showTopic fs args).wordcloudFiles
      = [] ∧
    (mainRun sent wt fitter showTopics docTopics showTopic fs args).topicDoc = [] ∧
    (mainRun sent wt fitter showTopics docTopics showTopic fs args).outcome =
      Outcome.exited 0 := by
  cases hs : fs.readFile args.stopwords with
  | none => simp [mainRun, hs]
  | some sl =>
    cases h with
    | inl hl => exact absurd (hs ▸ hl) (by simp)
    | inr hr => simp [mainRun, hs, hr]

/-- Witness for C7 (amended) at a concrete run with an unreadable input
file. -/
theorem fatal_io_aborts_witness :
    (mainRun oneSent twoWords uFit uShowTopicsTen uDocTopics uShowTopic
        wFSBadInput wArgs).criticalLog ≠ [] ∧
    (mainRun oneSent twoWords uFit uShowTopicsTen uDocTopics uShowTopic
        wFSBadInput wArgs).reportWritten = false ∧
    (mainRun oneSent twoWords uFit uShowTopicsTen uDocTopics uShowTopic
        wFSBadInput wArgs).wordcloudFiles = [] ∧
    (mainRun oneSent twoWords uFit uShowTopicsTen uDocTopics uShowTopic
        wFSBadInput wArgs).topicDoc = [] ∧
    (mainRun oneSent twoWords uFit uShowTopicsTen uDocTopics uShowTopic
        wFSBadInput wArgs).outcome = Outcome.exited 0 :=
  fatal_io_aborts oneSent twoWords uFit uShowTopicsTen uDocTopics uShowTopic
    wFSBadInput wArgs (Or.inr (by decide))

/-- C7 counterexample: at a concrete run whose stopword file is unreadable,
the process terminates through `sys.exit()` with exit status 0 — there is no
non-zero exit code, contrary to the claim's "non-zero-equivalent abnormal
exit". -/
theorem fatal_io_zero_exit_counterexample :
    (mainRun oneSent twoWords uFit uShowTopicsTen uDocTopics uShowTopic
        wFSBadStop wArgs).outcome = Outcome.exited 0 ∧
    ¬ ∃ c, c ≠ 0 ∧
      (mainRun oneSent twoWords uFit uShowTopicsTen uDocTopics uShowTopic
        wFSBadStop wArgs).outcome = Outcome.exited c := by
  refine ⟨rfl, ?_⟩
  rintro ⟨c, hc, h⟩
  have h0 : (mainRun oneSent twoWords uFit uShowTopicsTen uDocTopics uShowTopic
      wFSBadStop wArgs).outcome = Outcome.exited 0 := rfl
  rw [h0] at h
  exact hc (Outcome.exited.inj h).symm

theorem generateWordcloudNames_getD (input : List String) (n k : Nat) (hk : k < n) :
    (generateWordcloudNames input n).getD k "" = wordcloudBase input k ++ ".png" := by
  simp [generateWordcloudNames, generateBases, List.getD_eq_getElem?_getD,
    List.getElem?_map, List.getElem?_range hk]

/-- C8: word-cloud artifact filenames: entry 0 (the aggregate) is
`"all.png"`, and the entry for an input file at path `dir ++ "/" ++ name` is
the file's base name with its extension stripped plus `".png"`, independent
of the directory; concretely, input path `"chapters/ch1.txt"` yields exactly
`"ch1.png"`. -/
theorem wordcloud_filenames (input : List String) (n i : Nat) (dir name : String)
    (h0 : 0 < n) (hi : i + 1 < n) (hslash : '/' ∉ name.data)
    (hin : input.getD i "" = dir ++ "/" ++ name) :
    (generateWordcloudNames input n).getD 0 "" = "all.png" ∧
    (generateWordcloudNames input n).getD (i + 1) "" =
      pySplitextStem name ++ ".png" ∧
    (generateWordcloudNames ["chapters/ch1.txt"] 2).getD 1 "" = "ch1.png" := by
  refine ⟨?_, ?_, by decide⟩
  · rw [generateWordcloudNames_getD input n 0 h0]
    rfl
  · rw [generateWordcloudNames_getD input n (i + 1) hi, wordcloudBase,
      if_neg (by omega)]
    simp only [Nat.add_sub_cancel]
    rw [hin, pyBasename_append dir name hslash]

/-- Witness for C8 at the input path `"chapters/ch1.txt"`. -/
theorem wordcloud_filenames_witness :
    (generateWordcloudNames ["chapters/ch1.txt"] 2).getD 0 "" = "all.png" ∧
    (generateWordcloudNames ["chapters/ch1.txt"] 2).getD (0 + 1) "" =
      pySplitextStem "ch1.txt" ++ ".png" ∧
    (generateWordcloudNames ["chapters/ch1.txt"] 2).getD 1 "" = "ch1.png" :=
  wordcloud_filenames ["chapters/ch1.txt"] 2 0 "chapters" "ch1.txt"
    (by decide) (by decide) (by decide) (by decide)

/-- C9: with the external fitter modelled as a function of the configuration
and the corpus (the fixed-seed determinism assumption), two runs of the
pipeline on identical inputs produce identical dominant-topic records, and
the configuration the model is fitted with is the fixed one: 10 topics,
symmetric prior, 100 inference iterations, 10 training passes, random seed
100. -/
theorem topic_assignments_deterministic {M : Type}
    (sent wt : String → List String)
    (fitter : LdaConfig → List (List String) → M)
    (showTopics : M → List (Nat × List (String × Rat)))
    (docTopics : M → List (List (Nat × Rat)))
    (showTopic : M → Nat → List (String × Rat))
    (fs1 fs2 : FileSystem) (args1 args2 : Args)
    (hfs : fs1 = fs2) (hargs : args1 = args2) :
    (mainRun sent wt fitter showTopics docTopics showTopic fs1 args1).topicDoc =
      (mainRun sent wt fitter showTopics docTopics showTopic fs2 args2).topicDoc ∧
    ldaConfig.numTopics = 10 ∧ ldaConfig.alpha = "symmetric" ∧
    ldaConfig.iterations = 100 ∧ ldaConfig.passes = 10 ∧
    ldaConfig.randomState = 100 := by
  subst hfs
  subst hargs
  exact ⟨rfl, rfl, rfl, rfl, rfl, rfl⟩

/-- Witness for C9 at a concrete repeated run. -/
theorem topic_assignments_deterministic_witness :
    (mainRun oneSent twoWords uFit uShowTopicsTen uDocTopics uShowTopic
        wFS wArgs).topicDoc =
      (mainRun oneSent twoWords uFit uShowTopicsTen uDocTopics uShowTopic
        wFS wArgs).topicDoc ∧
    ldaConfig.numTopics = 10 ∧ ldaConfig.alpha = "symmetric" ∧
    ldaConfig.iterations = 100 ∧ ldaConfig.passes = 10 ∧
    ldaConfig.randomState = 100 :=
  topic_assignments_deterministic oneSent twoWords uFit uShowTopicsTen
    uDocTopics uShowTopic wFS wFS wArgs wArgs rfl rfl

/-- C10: the output directory is created (when absent) after the stopword
file has been read and before any input file is read: a run aborted by an
unreadable stopword file never performs the creation side effect, while a
run aborted by an unreadable input file has already performed it. -/
theorem outdir_creation_order {M : Type} (sent wt : String → List String)
    (fitter : LdaConfig → List (List String) → M)
    (showTopics : M → List (Nat × List (String × Rat)))
    (docTopics : M → List (List (Nat × Rat)))
    (showTopic : M → Nat → List (String × Rat))
    (fs : FileSystem) (args : Args) :
    (fs.readFile args.stopwords = none →
      (mainRun sent wt fitter showTopics docTopics showTopic fs args).outputDirCreated
          = false ∧
      (mainRun sent wt fitter showTopics docTopics showTopic fs args).outcome =
        Outcome.exited 0) ∧
    (∀ sl, fs.readFile args.stopwords = some sl →
      readInputFiles fs args.input = none →
      (mainRun sent wt fitter showTopics docTopics showTopic fs args).outputDirCreated
          = !fs.outputDirExists ∧
      (mainRun sent wt fitter showTopics docTopics showTopic fs args).outcome =
        Outcome.exited 0) := by
  constructor
  · intro hs
    simp [mainRun, hs]
  · intro sl hs hr
    simp [mainRun, hs, hr]

/-- Witness for C10: unreadable stopword file and absent directory leaves it
uncreated; unreadable input file after a readable stopword file leaves it
created. -/
theorem outdir_creation_order_witness :
    ((mainRun oneSent twoWords uFit uShowTopicsTen uDocTopics uShowTopic
        wFSBadStop wArgs).outputDirCreated = false ∧
      (mainRun oneSent twoWords uFit uShowTopicsTen uDocTopics uShowTopic
        wFSBadStop wArgs).outcome = Outcome.exited 0) ∧
    ((mainRun oneSent twoWords uFit uShowTopicsTen uDocTopics uShowTopic
        wFSBadInput wArgs).outputDirCreated = !wFSBadInput.outputDirExists ∧
      (mainRun oneSent twoWords uFit uShowTopicsTen uDocTopics uShowTopic
        wFSBadInput wArgs).outcome = Outcome.exited 0) :=
  ⟨(outdir_creation_order oneSent twoWords uFit uShowTopicsTen uDocTopics
      uShowTopic wFSBadStop wArgs).1 rfl,
   (outdir_creation_order oneSent twoWords uFit uShowTopicsTen uDocTopics
      uShowTopic wFSBadInput wArgs).2 ["the"] (by decide) (by decide)⟩
